import Mathlib

/-!
Verification of `src/utils/cli/external_tools_config.py` (SYMFLUENCE external
tools configuration) against its natural-language specification.

The Python module defines two pure functions:

* `get_common_build_environment() -> str` — returns one fixed shell-script
  string (the build-environment preamble, lines 24-332);
* `get_external_tools_definitions() -> Dict[str, Dict[str, Any]]` — returns a
  literal dictionary of ten tool configurations (lines 335-1125).

The embedding below mirrors the Python data model:

* Python dictionaries become association lists `List (String × Val)` so that
  key presence, key order and key lookup are faithfully representable;
* the large shell-script string literals that appear as build commands are
  represented by the opaque atoms of `Script`: the scripts are distinct string
  literals in the source, so distinct atoms model distinct strings, and the
  single shared preamble produced by `get_common_build_environment` is the
  atom `Script.commonEnv`;
* the behaviour of the shell fragments that the claims are about (the fetch
  retry loops inside the build scripts, and the `detect_compilers` function of
  the preamble) is modelled separately by executable Lean functions, each
  translated line by line from the corresponding shell text.

Both Python functions take no arguments and read no ambient state.  To state
determinism non-trivially, the embedded functions receive the process
environment (`ProcEnv`) they could have consulted; their bodies, like the
source, never use it.
-/

/-- The distinct shell-script string literals appearing in `build_commands`
lists of the source, as opaque atoms.  `commonEnv` is the string returned by
`get_common_build_environment` (source lines 28-332); the others are the
per-tool build scripts, named by the tool they belong to. -/
inductive Script where
  | commonEnv
  | sundialsBuild
  | summaBuild
  | mizurouteBuild
  | trouteBuild
  | fuseBuild
  | taudemBuild
  | gistoolBuild
  | datatoolBuild
  | ngenBuild
  | ngiabBuild
deriving DecidableEq

/-- Values occurring inside the nested `verify_install` dictionary:
either a string (`check_type`) or a list of strings (`file_paths`). -/
inductive IVal where
  | istr (s : String)
  | istrs (xs : List String)
deriving DecidableEq

/-- Values occurring in a tool-configuration dictionary (`Dict[str, Any]`):
`None`, strings, integers, lists of strings, lists of build scripts, and the
nested `verify_install` dictionary. -/
inductive Val where
  | null
  | vstr (s : String)
  | vint (n : Int)
  | vstrs (xs : List String)
  | vscripts (xs : List Script)
  | vdict (xs : List (String × IVal))
deriving DecidableEq

/-- One tool configuration: a Python `Dict[str, Any]` as an association list,
in source key order. -/
abbrev ToolConfig := List (String × Val)

/-- The process environment the Python functions could have read (they read
none of it). -/
abbrev ProcEnv := String → Option String

/-- Embeds `get_common_build_environment` (source lines 24-332): the function
returns one fixed shell-script string, here the atom `Script.commonEnv`.  The
body is a string literal; no ambient state is consulted. -/
def get_common_build_environment (_env : ProcEnv) : Script :=
  Script.commonEnv

/-- Embeds `get_external_tools_definitions` (source lines 335-1125): a literal
dictionary mapping the ten tool names to their configuration dictionaries.
Every key of every dictionary is transcribed, in source order, with the source
string values; Python `None` becomes `Val.null` and the build-script string
literals become their `Script` atoms.  As in the source, the first build
command of the native-build tools is the value `common_env` obtained from
`get_common_build_environment`. -/
def get_external_tools_definitions (env : ProcEnv) : List (String × ToolConfig) :=
  let common_env := get_common_build_environment env
  [ ("sundials",
      [ ("description", Val.vstr "SUNDIALS - SUite of Nonlinear and DIfferential/ALgebraic equation Solvers"),
        ("config_path_key", Val.vstr "SUNDIALS_INSTALL_PATH"),
        ("config_exe_key", Val.vstr "SUNDIALS_DIR"),
        ("default_path_suffix", Val.vstr "installs/sundials/install/sundials/"),
        ("default_exe", Val.vstr "lib/libsundials_core.a"),
        ("repository", Val.null),
        ("branch", Val.null),
        ("install_dir", Val.vstr "sundials"),
        ("build_commands", Val.vscripts [common_env, Script.sundialsBuild]),
        ("dependencies", Val.vstrs []),
        ("test_command", Val.null),
        ("verify_install", Val.vdict
          [ ("file_paths", IVal.istrs
              [ "lib64/libsundials_core.a",
                "lib/libsundials_core.a",
                "lib64/libsundials_core.so",
                "lib/libsundials_core.so",
                "include/sundials/sundials_config.h" ]),
            ("check_type", IVal.istr "exists_any") ]),
        ("order", Val.vint 1) ]),
    ("summa",
      [ ("description", Val.vstr "Structure for Unifying Multiple Modeling Alternatives"),
        ("config_path_key", Val.vstr "SUMMA_INSTALL_PATH"),
        ("config_exe_key", Val.vstr "SUMMA_EXE"),
        ("default_path_suffix", Val.vstr "installs/summa/bin/"),
        ("default_exe", Val.vstr "summa_sundials.exe"),
        ("repository", Val.vstr "https://github.com/CH-Earth/summa.git"),
        ("branch", Val.vstr "develop"),
        ("install_dir", Val.vstr "summa"),
        ("requires", Val.vstrs ["sundials"]),
        ("build_commands", Val.vscripts [common_env, Script.summaBuild]),
        ("dependencies", Val.vstrs ["netcdf", "netcdf-fortran", "sundials"]),
        ("test_command", Val.null),
        ("verify_install", Val.vdict
          [ ("file_paths", IVal.istrs ["bin/summa_sundials.exe"]),
            ("check_type", IVal.istr "exists") ]),
        ("order", Val.vint 2) ]),
    ("mizuroute",
      [ ("description", Val.vstr "River network routing model"),
        ("config_path_key", Val.vstr "MIZUROUTE_INSTALL_PATH"),
        ("config_exe_key", Val.vstr "MIZUROUTE_EXE"),
        ("default_path_suffix", Val.vstr "installs/mizuRoute/route/bin/"),
        ("default_exe", Val.vstr "mizuRoute.exe"),
        ("repository", Val.vstr "https://github.com/ESCOMP/mizuRoute.git"),
        ("branch", Val.vstr "main"),
        ("install_dir", Val.vstr "mizuRoute"),
        ("build_commands", Val.vscripts [common_env, Script.mizurouteBuild]),
        ("dependencies", Val.vstrs ["netcdf", "netcdf-fortran"]),
        ("test_command", Val.null),
        ("verify_install", Val.vdict
          [ ("file_paths", IVal.istrs ["route/bin/mizuRoute.exe"]),
            ("check_type", IVal.istr "exists") ]),
        ("order", Val.vint 3) ]),
    ("troute",
      [ ("description", Val.vstr "NOAA's Next Generation river routing model"),
        ("config_path_key", Val.vstr "TROUTE_INSTALL_PATH"),
        ("config_exe_key", Val.vstr "TROUTE_MODULE"),
        ("default_path_suffix", Val.vstr "installs/t-route/src/troute-network/"),
        ("default_exe", Val.vstr "troute/network/__init__.py"),
        ("repository", Val.vstr "https://github.com/NOAA-OWP/t-route.git"),
        ("branch", Val.null),
        ("install_dir", Val.vstr "t-route"),
        ("build_commands", Val.vscripts [Script.trouteBuild]),
        ("dependencies", Val.vstrs []),
        ("test_command", Val.null),
        ("verify_install", Val.vdict
          [ ("file_paths", IVal.istrs ["src/troute-network/troute/network/__init__.py"]),
            ("check_type", IVal.istr "exists") ]),
        ("order", Val.vint 4) ]),
    ("fuse",
      [ ("description", Val.vstr "Framework for Understanding Structural Errors in hydrological models"),
        ("config_path_key", Val.vstr "FUSE_INSTALL_PATH"),
        ("config_exe_key", Val.vstr "FUSE_EXE"),
        ("default_path_suffix", Val.vstr "installs/fuse/bin/"),
        ("default_exe", Val.vstr "fuse.exe"),
        ("repository", Val.vstr "https://github.com/CH-Earth/fuse.git"),
        ("branch", Val.vstr "main"),
        ("install_dir", Val.vstr "fuse"),
        ("build_commands", Val.vscripts [common_env, Script.fuseBuild]),
        ("dependencies", Val.vstrs ["netcdf", "netcdf-fortran"]),
        ("test_command", Val.null),
        ("verify_install", Val.vdict
          [ ("file_paths", IVal.istrs ["bin/fuse.exe"]),
            ("check_type", IVal.istr "exists") ]),
        ("order", Val.vint 5) ]),
    ("taudem",
      [ ("description", Val.vstr "Terrain Analysis Using Digital Elevation Models"),
        ("config_path_key", Val.vstr "TAUDEM_INSTALL_PATH"),
        ("config_exe_key", Val.vstr "TAUDEM_BIN"),
        ("default_path_suffix", Val.vstr "installs/TauDEM/bin/"),
        ("default_exe", Val.vstr "pitremove"),
        ("repository", Val.vstr "https://github.com/dtarb/TauDEM.git"),
        ("branch", Val.vstr "develop"),
        ("install_dir", Val.vstr "TauDEM"),
        ("build_commands", Val.vscripts [common_env, Script.taudemBuild]),
        ("dependencies", Val.vstrs []),
        ("test_command", Val.null),
        ("verify_install", Val.vdict
          [ ("file_paths", IVal.istrs ["bin/pitremove"]),
            ("check_type", IVal.istr "exists") ]),
        ("order", Val.vint 6) ]),
    ("gistool",
      [ ("description", Val.vstr "Geospatial data extraction and processing tool"),
        ("config_path_key", Val.vstr "INSTALL_PATH_GISTOOL"),
        ("config_exe_key", Val.vstr "EXE_NAME_GISTOOL"),
        ("default_path_suffix", Val.vstr "installs/gistool"),
        ("default_exe", Val.vstr "extract-gis.sh"),
        ("repository", Val.vstr "https://github.com/kasra-keshavarz/gistool.git"),
        ("branch", Val.null),
        ("install_dir", Val.vstr "gistool"),
        ("build_commands", Val.vscripts [Script.gistoolBuild]),
        ("verify_install", Val.vdict
          [ ("file_paths", IVal.istrs ["extract-gis.sh"]),
            ("check_type", IVal.istr "exists") ]),
        ("dependencies", Val.vstrs []),
        ("test_command", Val.null),
        ("order", Val.vint 7) ]),
    ("datatool",
      [ ("description", Val.vstr "Meteorological data extraction and processing tool"),
        ("config_path_key", Val.vstr "DATATOOL_PATH"),
        ("config_exe_key", Val.vstr "DATATOOL_SCRIPT"),
        ("default_path_suffix", Val.vstr "installs/datatool"),
        ("default_exe", Val.vstr "extract-dataset.sh"),
        ("repository", Val.vstr "https://github.com/kasra-keshavarz/datatool.git"),
        ("branch", Val.null),
        ("install_dir", Val.vstr "datatool"),
        ("build_commands", Val.vscripts [Script.datatoolBuild]),
        ("dependencies", Val.vstrs []),
        ("test_command", Val.vstr "--help"),
        ("verify_install", Val.vdict
          [ ("file_paths", IVal.istrs ["extract-dataset.sh"]),
            ("check_type", IVal.istr "exists") ]),
        ("order", Val.vint 8) ]),
    ("ngen",
      [ ("description", Val.vstr "NextGen National Water Model Framework"),
        ("config_path_key", Val.vstr "NGEN_INSTALL_PATH"),
        ("config_exe_key", Val.vstr "NGEN_EXE"),
        ("default_path_suffix", Val.vstr "installs/ngen/cmake_build"),
        ("default_exe", Val.vstr "ngen"),
        ("repository", Val.vstr "https://github.com/CIROH-UA/ngen"),
        ("branch", Val.vstr "ngiab"),
        ("install_dir", Val.vstr "ngen"),
        ("build_commands", Val.vscripts [common_env, Script.ngenBuild]),
        ("dependencies", Val.vstrs []),
        ("test_command", Val.vstr "--help"),
        ("verify_install", Val.vdict
          [ ("file_paths", IVal.istrs ["cmake_build/ngen"]),
            ("check_type", IVal.istr "exists") ]),
        ("order", Val.vint 9) ]),
    ("ngiab",
      [ ("description", Val.vstr "NextGen In A Box - Container-based ngen deployment"),
        ("config_path_key", Val.vstr "NGIAB_INSTALL_PATH"),
        ("config_exe_key", Val.vstr "NGIAB_SCRIPT"),
        ("default_path_suffix", Val.vstr "installs/ngiab"),
        ("default_exe", Val.vstr "guide.sh"),
        ("repository", Val.null),
        ("branch", Val.vstr "main"),
        ("install_dir", Val.vstr "ngiab"),
        ("build_commands", Val.vscripts [Script.ngiabBuild]),
        ("dependencies", Val.vstrs []),
        ("test_command", Val.null),
        ("verify_install", Val.vdict
          [ ("file_paths", IVal.istrs ["guide.sh"]),
            ("check_type", IVal.istr "exists") ]),
        ("order", Val.vint 10) ]) ]

/-- The catalog at an arbitrary fixed process environment.  The source
functions read no state, so this instantiation is representative (see
`get_external_tools_definitions_const`). -/
def toolsCatalog : List (String × ToolConfig) :=
  get_external_tools_definitions (fun _ => none)

/-- The value of `get_external_tools_definitions` does not depend on the
process environment: the source body is a literal. -/
theorem get_external_tools_definitions_const (env : ProcEnv) :
    get_external_tools_definitions env = toolsCatalog := rfl


/-! ## Accessors over the catalog -/

/-- The catalog keys (tool names), in source order. -/
def catalogKeys : List String := toolsCatalog.map Prod.fst

/-- The configuration dictionary of a named tool (empty when the name is not a
catalog key). -/
def configOf (name : String) : ToolConfig :=
  (toolsCatalog.lookup name).getD []

/-- The `dependencies` list of a tool configuration (empty when the key is
absent or not a list of strings). -/
def depList (t : ToolConfig) : List String :=
  match t.lookup "dependencies" with
  | some (Val.vstrs xs) => xs
  | _ => []

/-- The `requires` list of a tool configuration (empty when the key is absent
or not a list of strings). -/
def reqList (t : ToolConfig) : List String :=
  match t.lookup "requires" with
  | some (Val.vstrs xs) => xs
  | _ => []

/-- Modelled from the spec: the DependencyResolver component (not present
under `src/`) merges the `requires` and `dependencies` lists of a tool into
one dependency set for ordering purposes.  Only the catalog itself is in
`src/`; this definition follows the words of spec sections 3 and 9.4. -/
def resolverDependencySet (t : ToolConfig) : List String :=
  depList t ++ reqList t

/-- The `build_commands` list of a tool configuration. -/
def buildCommandsOf (t : ToolConfig) : List Script :=
  match t.lookup "build_commands" with
  | some (Val.vscripts xs) => xs
  | _ => []

/-- The `order` value of a tool configuration (0 when absent). -/
def toolOrder (t : ToolConfig) : Int :=
  match t.lookup "order" with
  | some (Val.vint n) => n
  | _ => 0

/-- The `summa` tool configuration. -/
def summaConfig : ToolConfig := configOf "summa"

/-! ## The dependency graph of the catalog

Vertices are the catalog keys; there is an edge from tool `a` to name `b`
when `b` occurs in the merged `dependencies`/`requires` lists of `a` and `b`
is itself a catalog key (the restriction stated by the claim). -/

/-- Edge of the catalog dependency graph: `a` is a catalog tool and `b` is a
catalog key occurring in the merged dependency set of `a`. -/
def depEdge (a b : String) : Bool :=
  catalogKeys.contains a && catalogKeys.contains b
    && (resolverDependencySet (configOf a)).contains b

/-- Nonempty directed paths along `depEdge`. -/
inductive DepPath : String → String → Prop where
  | single {a b : String} (h : depEdge a b = true) : DepPath a b
  | cons {a b c : String} (h : depEdge a b = true) (p : DepPath b c) : DepPath a c

/-- Acyclicity of the catalog dependency graph: no tool reaches itself through
a nonempty chain of dependency edges. -/
def AcyclicCatalog : Prop := ∀ a, ¬ DepPath a a

/-! ## Fetch behaviour of the build scripts

Each model is translated from the shell text of the corresponding build
script in the source; `fetchOk n` tells whether the n-th network operation of
the step would succeed.  Results are `(succeeded, attempts made)`. -/

/-- From the SUNDIALS build script (source lines 370-383):
`for attempt in 1 2 3` — each attempt runs `wget` with a `curl` fallback
(one fetch operation, `fetchOk n`); on success the loop breaks; on failure at
attempt 3 the step runs `exit 1`; otherwise it sleeps 2 seconds and retries. -/
def sundialsDownload (fetchOk : Nat → Bool) : Bool × Nat :=
  if fetchOk 1 then (true, 1)
  else if fetchOk 2 then (true, 2)
  else (fetchOk 3, 3)

/-- From the ngen build script (source lines 1008-1013): the Boost archive is
fetched by `wget … || curl …` under `set -e` — one wget attempt (`fetchOk 1`)
then one curl attempt (`fetchOk 2`); if both fail the step fails immediately:
there is no backoff and no third attempt. -/
def ngenBoostFetch (fetchOk : Nat → Bool) : Bool × Nat :=
  if fetchOk 1 then (true, 1) else (fetchOk 2, 2)

/-- From the ngiab build script (source line 1105): a single `git clone`
under `set -e`; no retry. -/
def ngiabClone (cloneOk : Bool) : Bool × Nat := (cloneOk, 1)


/-! ## The compiler-detection part of the build-environment preamble

Translated from the shell text of `get_common_build_environment` (source
lines 34-276).  A `Host` collects exactly what that shell code reads: the
pre-set compiler environment variables, the `SYMFLUENCE_COMPILERS_DETECTED`
marker, the `EBVERSIONGCC` variable, the first word of `nf-config --fc`
output, which commands `command -v` can resolve, whether a CI indicator
variable is set, and the detected platform identifier.  Environment-variable
values use `""` for unset-or-empty, matching the shell tests `[ -n … ]` and
the substitutions `${VAR:-default}`.

Omitted, with no effect on the modelled outputs: the progress `echo` lines,
the `module load` attempt (it changes no exported variable name), the
CMake-flag and `NCORES` exports, the `FC_EXE` export (always a copy of `FC`),
and the effect of the transient `apt-get install` attempt on command
resolvability (in CI the detection result never depends on it). -/

/-- Host state read by the compiler-detection shell code. -/
structure Host where
  envCC : String
  envCXX : String
  envFC : String
  envDetected : String
  ebversionGCC : String
  nfConfigFc : String
  resolvable : String → Bool
  isCI : Bool
  platform : String

/-- The exported compiler variables. -/
structure CompilerVars where
  cc : String
  cxx : String
  fc : String
deriving DecidableEq

/-- Shell `${v:-d}`: the value of `v` unless unset or empty. -/
def bashOr (v d : String) : String := if v = "" then d else v

/-- Shell `command -v s`: fails on an empty name, otherwise asks the host. -/
def cmdExists (h : Host) (s : String) : Bool :=
  if s = "" then false else h.resolvable s

/-- Whether `pat` occurs as a contiguous sublist of `l` (shell `case` glob
`*pat*`). -/
def containsSub (pat : List Char) : List Char → Bool
  | [] => pat.isPrefixOf []
  | c :: rest => pat.isPrefixOf (c :: rest) || containsSub pat rest

/-- Bash `[[ s =~ gfortran-([0-9]+) ]]` with `BASH_REMATCH[1]`: the maximal
digit run following the leftmost occurrence of `gfortran-` that is followed
by at least one digit. -/
def gfortranVerOf : List Char → Option String
  | [] => none
  | c :: rest =>
    if "gfortran-".toList.isPrefixOf (c :: rest) then
      let ds := ((c :: rest).drop 9).takeWhile Char.isDigit
      if ds.isEmpty then gfortranVerOf rest else some (String.mk ds)
    else gfortranVerOf rest

/-- Compiler search list of detection strategy 4 (source line 153). -/
def ccSearchList : List String :=
  ["gcc-13", "gcc-12", "gcc-11", "gcc-10", "gcc-9", "gcc", "clang"]

/-- Fortran-compiler search list of detection strategy 4 (source line 162). -/
def fcSearchList : List String :=
  ["gfortran-13", "gfortran-12", "gfortran-11", "gfortran-10", "gfortran-9", "gfortran", "ifort"]

/-- First name of the list that `command -v` resolves, else `""` (the shell
loop leaves `CC_FOUND`/`FC_FOUND` empty when nothing is found). -/
def firstResolvable (h : Host) : List String → String
  | [] => ""
  | c :: rest => if cmdExists h c then c else firstResolvable h rest

/-- The strategy chain of `detect_compilers` (source lines 78-175): pre-set
compilers, module environment, EasyBuild, NetCDF-reported compiler, then
platform search; each branch performs the exports written in the source. -/
def strategyVars (h : Host) : CompilerVars :=
  if cmdExists h h.envCC && cmdExists h h.envFC then
    ⟨h.envCC, bashOr h.envCXX "g++", h.envFC⟩
  else if cmdExists h "module" then
    ⟨bashOr h.envCC "gcc", bashOr h.envCXX "g++", bashOr h.envFC "gfortran"⟩
  else if h.ebversionGCC ≠ "" then
    ⟨bashOr h.envCC "gcc", bashOr h.envCXX "g++", bashOr h.envFC "gfortran"⟩
  else if cmdExists h "nf-config" then
    if h.nfConfigFc ≠ "" then
      if containsSub "gfortran".toList h.nfConfigFc.toList then
        match gfortranVerOf h.nfConfigFc.toList with
        | some ver => ⟨"gcc-" ++ ver, "g++-" ++ ver, "gfortran-" ++ ver⟩
        | none => ⟨bashOr h.envCC "gcc", bashOr h.envCXX "g++", bashOr h.envFC "gfortran"⟩
      else if containsSub "ifort".toList h.nfConfigFc.toList then
        ⟨bashOr h.envCC "icc", bashOr h.envCXX "icpc", bashOr h.envFC "ifort"⟩
      else
        ⟨bashOr h.envCC "gcc", bashOr h.envCXX "g++", bashOr h.envFC "gfortran"⟩
    else
      ⟨h.envCC, h.envCXX, h.envFC⟩
  else
    let ccFound := firstResolvable h ccSearchList
    let fcFound := firstResolvable h fcSearchList
    ⟨bashOr h.envCC (bashOr ccFound "gcc"), bashOr h.envCXX "g++",
     bashOr h.envFC (bashOr fcFound "gfortran")⟩

/-- The CI adjustment (source lines 186-200): in an Ubuntu CI with a missing
compiler and `apt-get` available, the variables are reset to
`gcc`/`g++`/`gfortran` after an install attempt. -/
def ciAdjusted (h : Host) (v : CompilerVars) : CompilerVars :=
  if h.isCI && h.platform == "ubuntu"
      && (!(cmdExists h v.cc) || !(cmdExists h v.fc))
      && cmdExists h "apt-get" then
    ⟨"gcc", "g++", "gfortran"⟩
  else v

/-- Body of `detect_compilers` after the early-return check: strategy chain,
CI adjustment, then the verification of lines 222-256, which returns 1
exactly when a configured compiler cannot be resolved and the host is not a
CI environment.  Result: (exported variables, returned zero). -/
def detectCompilersCore (h : Host) : CompilerVars × Bool :=
  let v := ciAdjusted h (strategyVars h)
  let missing := !(cmdExists h v.cc) || !(cmdExists h v.cxx) || !(cmdExists h v.fc)
  (v, !(missing && !h.isCI))

/-- `detect_compilers` (source lines 68-263): returns 0 immediately, with the
environment unchanged, when `SYMFLUENCE_COMPILERS_DETECTED` is set. -/
def detect_compilers (h : Host) : CompilerVars × Bool :=
  if h.envDetected ≠ "" then (⟨h.envCC, h.envCXX, h.envFC⟩, true)
  else detectCompilersCore h

/-- The preamble invocation `detect_compilers || { … }` (source lines
270-276): a detection failure is caught and the handler re-exports each
compiler variable by `${VAR:-default}`, so the script always proceeds with
these variables. -/
def probeCompilers (h : Host) : CompilerVars :=
  let r := detect_compilers h
  if r.2 then r.1
  else ⟨bashOr r.1.cc "gcc", bashOr r.1.cxx "g++", bashOr r.1.fc "gfortran"⟩

/-- A host with a pre-set but unresolvable compiler pair and nothing
detectable: detection fails and the handler preserves the bogus values. -/
def hostPresetBroken : Host :=
  { envCC := "badcc", envCXX := "", envFC := "badfc", envDetected := "",
    ebversionGCC := "", nfConfigFc := "", resolvable := fun _ => false,
    isCI := false, platform := "linux" }


/-! ## Specification-side predicates

These two predicates follow the words of the spec (sections 3 and 6); the
catalog embedded above from the source is checked against them. -/

/-- Follows the spec (section 3, `verification`): the rule under
`verify_install` holds a non-empty list of paths and a mode that is either
`exists` (ALL: every listed path must exist) or `exists_any` (ANY: at least
one listed path must exist). -/
def verificationRuleWellFormed (t : ToolConfig) : Bool :=
  match t.lookup "verify_install" with
  | some (Val.vdict d) =>
    match d.lookup "file_paths", d.lookup "check_type" with
    | some (IVal.istrs ps), some (IVal.istr m) =>
      !ps.isEmpty && (m == "exists" || m == "exists_any")
    | _, _ => false
  | _ => false

/-- Follows the spec (section 6, required fields): a dependency list
(`dependencies` or `requires`), an install directory, a non-empty ordered
list of build steps, and a verification rule with paths and mode. -/
def requiredFieldsPresent (t : ToolConfig) : Bool :=
  ((match t.lookup "dependencies" with
    | some (Val.vstrs _) => true
    | _ => false)
   || (match t.lookup "requires" with
       | some (Val.vstrs _) => true
       | _ => false))
  && (match t.lookup "install_dir" with
      | some (Val.vstr _) => true
      | _ => false)
  && (match t.lookup "build_commands" with
      | some (Val.vscripts (_ :: _)) => true
      | _ => false)
  && (match t.lookup "verify_install" with
      | some (Val.vdict d) =>
        (d.lookup "file_paths").isSome && (d.lookup "check_type").isSome
      | _ => false)

/-! ## Helper lemmas -/

/-- Restricted to catalog keys, the only dependency reference in the catalog
is from `summa` to `sundials`. -/
theorem mem_resolver_catalog : ∀ a ∈ catalogKeys, ∀ b ∈ catalogKeys,
    b ∈ resolverDependencySet (configOf a) → a = "summa" ∧ b = "sundials" := by
  decide

/-- The only edge of the catalog dependency graph is `summa → sundials`. -/
theorem depEdge_elim (a b : String) (h : depEdge a b = true) :
    a = "summa" ∧ b = "sundials" := by
  rw [depEdge, Bool.and_eq_true, Bool.and_eq_true] at h
  obtain ⟨⟨ha, hb⟩, hc⟩ := h
  exact mem_resolver_catalog a (List.elem_iff.mp ha) b (List.elem_iff.mp hb)
    (List.elem_iff.mp hc)

/-- Every dependency path starts at `summa`. -/
theorem depPath_start {a c : String} (p : DepPath a c) : a = "summa" := by
  cases p with
  | single h => exact (depEdge_elim _ _ h).1
  | cons h _ => exact (depEdge_elim _ _ h).1

/-- Shell `${v:-d}` is nonempty whenever the default is. -/
theorem bashOr_ne (v d : String) (hd : d ≠ "") : bashOr v d ≠ "" := by
  unfold bashOr; split
  · exact hd
  · assumption

/-! ## Claims -/

/-- C1, counterexample: the claim "every name referenced in any dependency
set is a key of the catalog" fails — `summa` lists `netcdf` among its
`dependencies`, and `netcdf` is not a catalog key. -/
theorem C1_counterexample :
    ("summa", summaConfig) ∈ toolsCatalog
    ∧ "netcdf" ∈ resolverDependencySet summaConfig
    ∧ "netcdf" ∉ catalogKeys := by decide

/-- C1, amended: every name in a `requires` list is a catalog key, and every
name in a `dependencies` list is either a catalog key or one of the external
library names `netcdf` / `netcdf-fortran`, which are not catalog keys. -/
theorem C1_dependency_names :
    ∀ p ∈ toolsCatalog,
      (∀ n ∈ reqList p.2, n ∈ catalogKeys)
      ∧ (∀ n ∈ depList p.2,
          n ∈ catalogKeys ∨ n = "netcdf" ∨ n = "netcdf-fortran") := by decide

/-- C1, witness for the amended theorem at the tool `summa` and the
dependency name `sundials`. -/
theorem C1_dependency_names_witness : "sundials" ∈ catalogKeys :=
  (C1_dependency_names ("summa", summaConfig) (by decide)).1 "sundials" (by decide)

/-- C2: the directed graph whose vertices are the catalog keys and whose
edges come from each tool's merged `dependencies`/`requires` lists,
restricted to catalog keys, is acyclic: no name reaches itself through a
nonempty chain of `depEdge` steps. -/
theorem C2_dependency_graph_acyclic : AcyclicCatalog := by
  intro a p
  have ha := depPath_start p
  subst ha
  cases p with
  | single h => exact absurd (depEdge_elim _ _ h).2 (by decide)
  | cons h p' =>
    have hb := (depEdge_elim _ _ h).2
    subst hb
    exact absurd (depPath_start p') (by decide)

/-- C3, counterexample: the claim "every network-fetch build step is retried
up to 3 times and reported failed only after exhausting all 3 attempts"
fails — with a fetch that succeeds only from the third attempt on, the ngen
Boost download (a network-fetch step of the catalog's `ngen` build commands)
is reported failed after only 2 attempts, while the SUNDIALS download
succeeds on its third attempt. -/
theorem C3_counterexample :
    ngenBoostFetch (fun n => decide (3 ≤ n)) = (false, 2)
    ∧ sundialsDownload (fun n => decide (3 ≤ n)) = (true, 3)
    ∧ (buildCommandsOf (configOf "ngen")).contains Script.ngenBuild = true := by
  decide

/-- C3, amended: only the SUNDIALS archive download is retried up to 3 times
(with a fixed 2-second backoff), succeeding as soon as one attempt succeeds
and reported failed only after all 3 attempts fail; the ngen Boost archive
download makes at most 2 attempts (one wget, one curl fallback, no backoff),
and the ngiab repository clone makes exactly 1 attempt. -/
theorem C3_fetch_retry_behaviour (fetchOk : Nat → Bool) :
    ((fetchOk 1 = false ∧ fetchOk 2 = false ∧ fetchOk 3 = true) →
        sundialsDownload fetchOk = (true, 3))
    ∧ ((∀ n, fetchOk n = false) → sundialsDownload fetchOk = (false, 3))
    ∧ (sundialsDownload fetchOk).2 ≤ 3
    ∧ (ngenBoostFetch fetchOk).2 ≤ 2
    ∧ ((∀ n, fetchOk n = false) → ngenBoostFetch fetchOk = (false, 2))
    ∧ (∀ ok : Bool, ngiabClone ok = (ok, 1)) := by
  refine ⟨?_, ?_, ?_, ?_, ?_, fun ok => rfl⟩
  · rintro ⟨h1, h2, h3⟩
    simp [sundialsDownload, h1, h2, h3]
  · intro hall
    simp [sundialsDownload, hall]
  · unfold sundialsDownload
    cases h1 : fetchOk 1 <;> cases h2 : fetchOk 2 <;> simp
  · unfold ngenBoostFetch
    cases h1 : fetchOk 1 <;> simp
  · intro hall
    simp [ngenBoostFetch, hall]

/-- C3, witness for the amended theorem: a fetch failing exactly twice makes
the SUNDIALS download succeed on its third attempt. -/
theorem C3_fetch_retry_behaviour_witness :
    sundialsDownload (fun n => decide (n = 3)) = (true, 3) :=
  (C3_fetch_retry_behaviour (fun n => decide (n = 3))).1
    ⟨by decide, by decide, by decide⟩

/-- C4, counterexample: the claim "whenever compiler detection is
inconclusive or errors, the probe falls back to gcc/g++/gfortran" fails — on
a host whose pre-set `CC`/`FC` point to unresolvable commands, detection
errors, yet the handler `${CC:-gcc}` preserves the bogus pre-set values
instead of substituting the defaults. -/
theorem C4_counterexample :
    (detect_compilers hostPresetBroken).2 = false
    ∧ probeCompilers hostPresetBroken = ⟨"badcc", "g++", "badfc"⟩
    ∧ probeCompilers hostPresetBroken ≠ ⟨"gcc", "g++", "gfortran"⟩ := by decide

/-- C4, amended: the preamble never aborts on detection failure — the
handler catches the error, leaves every non-empty compiler variable as it
was (even when invalid), and substitutes `gcc`/`g++`/`gfortran` for the
empty ones, so the build proceeds with all three variables set; and when
detection is inconclusive because nothing is pre-set and no command
resolves, the probe yields exactly the documented defaults. -/
theorem C4_probe_fallback (h : Host) :
    ((detect_compilers h).2 = false →
        ((probeCompilers h).cc ≠ "" ∧ (probeCompilers h).cxx ≠ ""
          ∧ (probeCompilers h).fc ≠ "")
        ∧ ((detect_compilers h).1.cc ≠ "" →
            (probeCompilers h).cc = (detect_compilers h).1.cc))
    ∧ (h.envDetected = "" → h.envCC = "" → h.envCXX = "" → h.envFC = "" →
        h.ebversionGCC = "" → (∀ s, h.resolvable s = false) →
        probeCompilers h = ⟨"gcc", "g++", "gfortran"⟩) := by
  constructor
  · intro hfail
    constructor
    · simp only [probeCompilers, hfail, Bool.false_eq_true, if_false]
      exact ⟨bashOr_ne _ _ (by decide), bashOr_ne _ _ (by decide),
        bashOr_ne _ _ (by decide)⟩
    · intro hcc
      simp only [probeCompilers, hfail, Bool.false_eq_true, if_false]
      unfold bashOr
      simp [hcc]
  · intro hdet hcc hcxx hfc heb hres
    cases hci : h.isCI <;>
      simp [probeCompilers, detect_compilers, detectCompilersCore, strategyVars,
        ciAdjusted, cmdExists, bashOr, firstResolvable, ccSearchList, fcSearchList,
        hdet, hcc, hcxx, hfc, heb, hres, hci]

/-- A host with nothing pre-set and no resolvable command. -/
def hostBare : Host :=
  { envCC := "", envCXX := "", envFC := "", envDetected := "",
    ebversionGCC := "", nfConfigFc := "", resolvable := fun _ => false,
    isCI := false, platform := "linux" }

/-- C4, witness for the amended theorem: on a bare host the probe yields the
documented defaults. -/
theorem C4_probe_fallback_witness :
    probeCompilers hostBare = ⟨"gcc", "g++", "gfortran"⟩ :=
  (C4_probe_fallback hostBare).2 rfl rfl rfl rfl rfl (fun _ => rfl)

/-- C5: every tool of the catalog carries a verification rule with a
non-empty path list and a mode that is either `exists` (ALL) or `exists_any`
(ANY); no other mode value occurs. -/
theorem C5_verification_rules :
    ∀ p ∈ toolsCatalog, verificationRuleWellFormed p.2 = true := by decide

/-- C5, witness at the tool `sundials`. -/
theorem C5_verification_rules_witness :
    verificationRuleWellFormed (configOf "sundials") = true :=
  C5_verification_rules ("sundials", configOf "sundials") (by decide)

/-- C6: every tool of the catalog has all required fields — a dependency
list (`dependencies` or `requires`), an install directory, a non-empty list
of build commands, and a verification rule with paths and mode. -/
theorem C6_required_fields :
    ∀ p ∈ toolsCatalog, requiredFieldsPresent p.2 = true := by decide

/-- C6, witness at the tool `ngiab`. -/
theorem C6_required_fields_witness :
    requiredFieldsPresent (configOf "ngiab") = true :=
  C6_required_fields ("ngiab", configOf "ngiab") (by decide)

/-- C7: the tool `summa` defines both a `requires` key and a `dependencies`
key whose memberships overlap (`sundials` is in both) but are not identical
(`netcdf` is only in `dependencies`); and the dependency set used for
ordering (modelled from the spec, the resolver being outside `src/`) is the
union of the two lists. -/
theorem C7_requires_dependencies_union :
    ("summa", summaConfig) ∈ toolsCatalog
    ∧ summaConfig.lookup "requires" = some (Val.vstrs ["sundials"])
    ∧ summaConfig.lookup "dependencies"
        = some (Val.vstrs ["netcdf", "netcdf-fortran", "sundials"])
    ∧ "sundials" ∈ reqList summaConfig
    ∧ "sundials" ∈ depList summaConfig
    ∧ "netcdf" ∈ depList summaConfig
    ∧ "netcdf" ∉ reqList summaConfig
    ∧ (∀ n : String, n ∈ resolverDependencySet summaConfig ↔
        n ∈ depList summaConfig ∨ n ∈ reqList summaConfig) :=
  ⟨by decide, by decide, by decide, by decide, by decide, by decide, by decide,
    fun _ => List.mem_append⟩

/-- The tools whose builds compile native code. -/
def nativeBuildTools : List String :=
  ["sundials", "summa", "mizuroute", "fuse", "taudem", "ngen"]

/-- C8: for every native-building tool the first build command is exactly
the value returned by `get_common_build_environment`, so all six share one
identical environment-setup preamble. -/
theorem C8_native_build_preamble :
    ∀ name ∈ nativeBuildTools, ∀ env : ProcEnv,
      (toolsCatalog.lookup name).isSome = true
      ∧ (buildCommandsOf (configOf name)).head?
          = some (get_common_build_environment env) := by
  intro name hname env
  fin_cases hname <;> exact ⟨by decide, rfl⟩

/-- C8, witness at the tool `sundials`. -/
theorem C8_native_build_preamble_witness :
    (buildCommandsOf (configOf "sundials")).head?
      = some (get_common_build_environment (fun _ => none)) :=
  (C8_native_build_preamble "sundials" (by decide) (fun _ => none)).2

/-- C9: the `order` values across the catalog are exactly 1 through 10 in
catalog order, pairwise distinct, over exactly 10 tools, so sorting by
`order` yields a unique total order. -/
theorem C9_order_values :
    toolsCatalog.map (fun p => toolOrder p.2) = [1, 2, 3, 4, 5, 6, 7, 8, 9, 10]
    ∧ (toolsCatalog.map (fun p => toolOrder p.2)).Nodup
    ∧ toolsCatalog.length = 10 := by decide

/-- C10: `get_external_tools_definitions` and `get_common_build_environment`
are deterministic and state-independent — called with any two process
environments they return equal values, a 10-tool catalog and one fixed
preamble. -/
theorem C10_deterministic (env₁ env₂ : ProcEnv) :
    get_external_tools_definitions env₁ = get_external_tools_definitions env₂
    ∧ get_common_build_environment env₁ = get_common_build_environment env₂
    ∧ (get_external_tools_definitions env₁).length = 10 :=
  ⟨rfl, rfl, rfl⟩

/-- C10, witness: two calls in visibly different process states return the
same catalog. -/
theorem C10_deterministic_witness :
    get_external_tools_definitions (fun _ => none)
      = get_external_tools_definitions (fun s => some s) :=
  (C10_deterministic (fun _ => none) (fun s => some s)).1
